import Mathlib

/-!
Verification of the keybase client service orchestration layer
(`go/service` excerpt: `Service.RegisterProtocols`, `Service.Handle`,
`Service.Run`, `Service.OnLogin`, `Service.OnLogout`, `Service.ListenLoop`,
`Service.ListenLoopWithStopper`) and of the per-user-key background engine
(`engine.PerUserKeyBackground`, `engine.PerUserKeyBackgroundRound`).

The Go code is shallowly embedded: each function becomes a pure Lean
function over explicit inputs standing for the outcomes of its external
calls (database opens, socket binds, RPC registration, network connects),
returning the value the Go function returns together with a trace of the
observable steps it performs.  Go `error` values are modelled by
`Option GoError` (`none` is Go's `nil`), and a Go panic is modelled by an
explicit `panicked` result.
-/

/-- Error value returned by a Go function, identified by a numeric code;
`Option GoError` models a Go `error` result, with `none` for `nil`. -/
structure GoError where
  code : Nat
deriving DecidableEq, Repr

/-- One entry of the enumerated protocol list built inside
`Service.RegisterProtocols`.  The handler constructors and `srv.Register`
live outside this excerpt, so a protocol is abstracted to: its identity
`pid`, whether the freshly constructed handler exposes the `Shutdowner`
capability (`hasShutdown`; per the spec some handlers do), and the outcome
`registerErr` of `srv.Register` for it. -/
structure Protocol where
  pid : Nat
  hasShutdown : Bool
  registerErr : Option GoError
deriving DecidableEq, Repr

/-- Result of `Service.RegisterProtocols`: the `shutdowners` named return,
the protocols that were actually registered, and the `err` named return. -/
structure RegisterResult where
  shutdowners : List Protocol
  registeredIds : List Nat
  err : Option GoError
deriving DecidableEq, Repr

/-- Registration loop of `Service.RegisterProtocols`: `srv.Register` each
protocol in order, stopping at (and returning) the first error. -/
def registerLoop : List Protocol → List Nat × Option GoError
  | [] => ([], none)
  | p :: rest =>
    match p.registerErr with
    | some e => ([], some e)
    | none =>
      let r := registerLoop rest
      (p.pid :: r.1, r.2)

/-- Embedding of `Service.RegisterProtocols`: builds the protocol list,
registers each entry in order, and returns.  The `shutdowners` named
return is declared but never appended to anywhere in the function body,
so the returned collection is always nil (embedded as `[]`). -/
def RegisterProtocols (protocols : List Protocol) : RegisterResult :=
  let r := registerLoop protocols
  { shutdowners := [], registeredIds := r.1, err := r.2 }

/-- Definition following the specification wording for the collection step
of `RegisterProtocols` ("collect those that expose a shutdown capability"),
to be compared with the source embedding `RegisterProtocols`. -/
def collectShutdownersSpec (protocols : List Protocol) : List Protocol :=
  protocols.filter (fun p => p.hasShutdown)

/-- Observable step performed during `Service.Handle`. -/
inductive Event where
  | registered (pid : Nat)
  | pushShutdownHook
  | logWarning
  | serveLoop
  | sentErrToNotifier
  | logRunWarning
  | cleanupRun
  | shutdownHandler (pid : Nat)
deriving DecidableEq, Repr

/-- State of the `sync.Once` latch guarding the per-connection shutdown
closure in `Service.Handle`. -/
structure OnceState where
  done : Bool
deriving DecidableEq, Repr

/-- Result of one invocation of the shutdown closure: the latch state after
the call, whether the guarded body ran on this call, the steps performed,
and the closure's return value. -/
structure ShutdownCall where
  state : OnceState
  fired : Bool
  events : List Event
  ret : Option GoError
deriving DecidableEq, Repr

/-- Embedding of the `shutdown` closure built in `Service.Handle`:
`shutdownOnce.Do` runs the body (calling `Shutdown()` on every collected
shutdowner, in order) only if the latch has not fired yet, and the closure
always returns nil. -/
def shutdownClosure (shutdowners : List Protocol) (st : OnceState) : ShutdownCall :=
  if st.done then
    { state := st, fired := false, events := [], ret := none }
  else
    { state := { done := true }, fired := true,
      events := Event.cleanupRun :: shutdowners.map (fun p => Event.shutdownHandler p.pid),
      ret := none }

/-- Repeated invocation of the shutdown closure: `n` sequential calls from
latch state `st`, returning how many of them ran the guarded body and the
list of their return values. -/
def shutdownCalls (shutdowners : List Protocol) : Nat → OnceState → Nat × List (Option GoError)
  | 0, _ => (0, [])
  | Nat.succ n, st =>
    let c := shutdownClosure shutdowners st
    let rest := shutdownCalls shutdowners n c.state
    ((if c.fired then 1 else 0) + rest.1, c.ret :: rest.2)

/-- Embedding of `Service.Handle` as the trace of steps of one invocation:
register the protocols, build the once-guarded shutdown closure, defer it,
push it as a process-wide shutdown hook, and, on a registration error, log
a warning and return; otherwise run the serve loop, send the terminal
error to the connection-closed notifier, and log it unless it is a clean
EOF (`serveIsEOF`).  The deferred closure runs when the function returns. -/
def Handle (protocols : List Protocol) (serveIsEOF : Bool) : List Event :=
  let r := RegisterProtocols protocols
  let st : OnceState := { done := false }
  let deferRun := (shutdownClosure r.shutdowners st).events
  match r.err with
  | some _ =>
    r.registeredIds.map Event.registered ++
      [Event.pushShutdownHook, Event.logWarning] ++ deferRun
  | none =>
    r.registeredIds.map Event.registered ++
      [Event.pushShutdownHook, Event.serveLoop, Event.sentErrToNotifier] ++
      (if serveIsEOF then [] else [Event.logRunWarning]) ++ deferRun

/-- Subsystem-stopping step performed during `Service.OnLogout`. -/
inductive LogoutStep where
  | shutdownGregor
  | stopChat
  | rekeyLogout
  | clearBadger
  | bgIdentLogout
deriving DecidableEq, Repr

/-- Outcome of running a Go function that may panic: either a normal
return carrying the performed steps and the returned error value, or a
runtime panic. -/
inductive ExecResult where
  | ok (steps : List LogoutStep) (ret : Option GoError)
  | panicked
deriving DecidableEq, Repr

/-- Liveness of the subsystem references `Service.OnLogout` touches: each
flag records whether the corresponding reference is non-nil.  `gregor` and
`badger` are Service fields; `messageDeliverer`, `convLoader` and
`fetchRetrier` are the chat-module interfaces of the ChatContext, nil
until `createChatModules` has run; `backgroundIdentifier` is nil until a
background identifier has been started. -/
structure ServiceState where
  gregor : Bool
  badger : Bool
  backgroundIdentifier : Bool
  messageDeliverer : Bool
  convLoader : Bool
  fetchRetrier : Bool
deriving DecidableEq, Repr

/-- Subsystem references as initialized by `NewService`: `gregor` and
`badger` are constructed there; the ChatContext is created empty, so all
chat-module interfaces are nil, and no background identifier exists. -/
def newServiceState : ServiceState :=
  { gregor := true, badger := true, backgroundIdentifier := false,
    messageDeliverer := false, convLoader := false, fetchRetrier := false }

/-- Embedding of `Service.stopChatModules`: receives from
`MessageDeliverer.Stop`, `ConvLoader.Stop` and `FetchRetrier.Stop` with no
nil guard; calling a method on a nil interface panics, so the result is
`none` (panic) when any of the three is nil. -/
def stopChatModules (s : ServiceState) : Option (List LogoutStep) :=
  if s.messageDeliverer && s.convLoader && s.fetchRetrier then
    some [LogoutStep.stopChat]
  else
    none

/-- Embedding of `Service.OnLogout`: shut down gregor if non-nil, stop the
chat modules (unguarded), notify the rekey master (always constructed by
`NewService`), clear the badger if non-nil, log out the background
identifier if non-nil, and return nil. -/
def OnLogout (s : ServiceState) : ExecResult :=
  let gregorSteps := if s.gregor then [LogoutStep.shutdownGregor] else []
  match stopChatModules s with
  | none => ExecResult.panicked
  | some chatSteps =>
    ExecResult.ok
      (gregorSteps ++ chatSteps ++ [LogoutStep.rekeyLogout] ++
        (if s.badger then [LogoutStep.clearBadger] else []) ++
        (if s.backgroundIdentifier then [LogoutStep.bgIdentLogout] else []))
      none

/-- Predicate on an `ExecResult` saying whether the run ended in a panic. -/
def ExecResult.isPanicked : ExecResult → Bool
  | ExecResult.ok _ _ => false
  | ExecResult.panicked => true

/-- Step performed during `Service.OnLogin`. -/
inductive LoginStep where
  | rekeyLogin
  | gregordConnectStep
  | startChat
  | runBGIdentifier
  | identifySelfStep
deriving DecidableEq, Repr

/-- Embedding of `Service.OnLogin`, parametrized by the outcome of the
`gregordConnect` call and by whether `Env.GetUID()` is nil: notify the
rekey master, connect to gregord and return its error if it fails, and for
a non-nil uid start the chat modules, restart the background identifier,
and fire the background self-identify. -/
def OnLogin (gregordConnectResult : Option GoError) (uidIsNil : Bool) :
    List LoginStep × Option GoError :=
  match gregordConnectResult with
  | some e => ([LoginStep.rekeyLogin, LoginStep.gregordConnectStep], some e)
  | none =>
    if uidIsNil then
      ([LoginStep.rekeyLogin, LoginStep.gregordConnectStep], none)
    else
      ([LoginStep.rekeyLogin, LoginStep.gregordConnectStep, LoginStep.startChat,
        LoginStep.runBGIdentifier, LoginStep.identifySelfStep], none)

/-- Startup step of `Service.Run`. -/
inductive RunStep where
  | writeServiceInfo
  | getExclusiveLock
  | cleanupSocketFile
  | openLocalDb
  | openLocalChatDb
  | bindSocket
  | criticalSetup
  | backgroundOps
  | acceptLoop
deriving DecidableEq, Repr

/-- Order in which `Service.Run` performs its startup steps. -/
def runSequence : List RunStep :=
  [RunStep.writeServiceInfo, RunStep.getExclusiveLock, RunStep.cleanupSocketFile,
   RunStep.openLocalDb, RunStep.openLocalChatDb, RunStep.bindSocket,
   RunStep.criticalSetup, RunStep.backgroundOps, RunStep.acceptLoop]

/-- Embedding of `Service.setupTeams`: installs the team loader and
returns nil. -/
def setupTeams : Option GoError := none

/-- Embedding of `Service.setupPVL`: installs the PVL source and returns
nil. -/
def setupPVL : Option GoError := none

/-- Embedding of `Service.SetupCriticalSubServices`: run `setupTeams` then
`setupPVL`, propagating the first error. -/
def SetupCriticalSubServices : Option GoError :=
  match setupTeams with
  | some e => some e
  | none =>
    match setupPVL with
    | some e => some e
    | none => none

/-- Outcomes of the fallible external calls `Service.Run` makes, in the
order the code makes them, together with the error eventually returned by
the listen loop. -/
structure RunEnv where
  writeServiceInfoErr : Option GoError
  lockErr : Option GoError
  cleanupSocketErr : Option GoError
  localDbErr : Option GoError
  localChatDbErr : Option GoError
  bindErr : Option GoError
  listenErr : Option GoError
deriving DecidableEq, Repr

/-- Embedding of `Service.Run`: perform the startup steps in order, and on
the first failing step return its error immediately; once all startup
steps succeed, launch the background operations and enter the accept loop,
returning the listen loop's error.  Returns the trace of steps entered and
the returned error value. -/
def Run (env : RunEnv) : List RunStep × Option GoError :=
  match env.writeServiceInfoErr with
  | some e => ([RunStep.writeServiceInfo], some e)
  | none =>
    match env.lockErr with
    | some e => ([RunStep.writeServiceInfo, RunStep.getExclusiveLock], some e)
    | none =>
      match env.cleanupSocketErr with
      | some e =>
        ([RunStep.writeServiceInfo, RunStep.getExclusiveLock,
          RunStep.cleanupSocketFile], some e)
      | none =>
        match env.localDbErr with
        | some e =>
          ([RunStep.writeServiceInfo, RunStep.getExclusiveLock,
            RunStep.cleanupSocketFile, RunStep.openLocalDb], some e)
        | none =>
          match env.localChatDbErr with
          | some e =>
            ([RunStep.writeServiceInfo, RunStep.getExclusiveLock,
              RunStep.cleanupSocketFile, RunStep.openLocalDb,
              RunStep.openLocalChatDb], some e)
          | none =>
            match env.bindErr with
            | some e =>
              ([RunStep.writeServiceInfo, RunStep.getExclusiveLock,
                RunStep.cleanupSocketFile, RunStep.openLocalDb,
                RunStep.openLocalChatDb, RunStep.bindSocket], some e)
            | none =>
              match SetupCriticalSubServices with
              | some e =>
                ([RunStep.writeServiceInfo, RunStep.getExclusiveLock,
                  RunStep.cleanupSocketFile, RunStep.openLocalDb,
                  RunStep.openLocalChatDb, RunStep.bindSocket,
                  RunStep.criticalSetup], some e)
              | none => (runSequence, env.listenErr)

/-- First error among the startup steps the claim enumerates (lock
acquisition, socket cleanup, the two store opens, socket bind, critical
subsystem setup), in the order `Service.Run` attempts them; stated from
the specification wording for comparison with the `Run` embedding. -/
def startupStepErr (env : RunEnv) : Option GoError :=
  match env.lockErr with
  | some e => some e
  | none =>
    match env.cleanupSocketErr with
    | some e => some e
    | none =>
      match env.localDbErr with
      | some e => some e
      | none =>
        match env.localChatDbErr with
        | some e => some e
        | none =>
          match env.bindErr with
          | some e => some e
          | none => SetupCriticalSubServices

/-- Terminal outcome of `l.Accept()` in the accept loop: either the
listener was closed (`IsSocketClosedError` holds) or some other error. -/
inductive AcceptErr where
  | closed
  | other (e : GoError)
deriving DecidableEq, Repr

/-- Embedding of `Service.ListenLoop`, parametrized by the identities of
the connections `Accept` yields before it fails and by the terminal
`Accept` error: each accepted connection is handed to `Handle` on its own
goroutine and the loop continues; on an `Accept` error the loop returns
nil if the error is a socket-closed error and the error itself otherwise.
Returns the handled connection identities and the returned error value. -/
def ListenLoop : List Nat → AcceptErr → List Nat × Option GoError
  | [], AcceptErr.closed => ([], none)
  | [], AcceptErr.other e => ([], some e)
  | c :: rest, fin =>
    let r := ListenLoop rest fin
    (c :: r.1, r.2)

/-- Observable step of the stopper coordination in
`Service.ListenLoopWithStopper`. -/
inductive StopEvent where
  | receivedExit (code : Nat)
  | closedListener
  | joinedLoop
deriving DecidableEq, Repr

/-- Embedding of `Service.ListenLoopWithStopper`: run `ListenLoop` on its
own goroutine, wait for the exit code delivered through `Stop`, close the
listener (which makes the pending `Accept` fail with a socket-closed
error), join the accept loop, and return the exit code together with the
loop's error.  Returns the coordination trace, the exit code, and the
error. -/
def ListenLoopWithStopper (conns : List Nat) (code : Nat) :
    List StopEvent × Nat × Option GoError :=
  let loopResult := ListenLoop conns AcceptErr.closed
  ([StopEvent.receivedExit code, StopEvent.closedListener, StopEvent.joinedLoop],
   code, loopResult.2)

/-- Phase of a background task's lifecycle. -/
inductive TaskPhase where
  | created
  | running
  | stopped
deriving DecidableEq, Repr

/-- Modelled from the spec: the generic `BackgroundTask` engine's own
implementation is not among the source files here (only its client
`PerUserKeyBackground` is).  Per the spec it holds a schedule, a
unit-of-work and shutdown/wake signals, is created before the owning
engine runs, and reaches stopped exactly once, idempotently, via a
one-shot shutdown latch; the model keeps the lifecycle phase and the
latch. -/
structure BackgroundTask where
  phase : TaskPhase
  shutdownRequested : Bool
deriving DecidableEq, Repr

/-- Modelled from the spec: `NewBackgroundTask` creates the task in its
initial state, before any loop has started and with the latch unset. -/
def NewBackgroundTask : BackgroundTask :=
  { phase := TaskPhase.created, shutdownRequested := false }

/-- Modelled from the spec: `BackgroundTask.Run` starts the driving loop
(no effect if shutdown was already requested). -/
def BackgroundTask.Run (t : BackgroundTask) : BackgroundTask :=
  if t.shutdownRequested then t else { t with phase := TaskPhase.running }

/-- Modelled from the spec: `BackgroundTask.Shutdown` requests
termination; the one-shot latch makes repeated calls no-ops, so exactly
the first call performs the observable termination (closing the internal
stop signal) and no call panics or double-closes it.  Returns the new task
state and whether this call performed the termination. -/
def BackgroundTask.Shutdown (t : BackgroundTask) : BackgroundTask × Bool :=
  if t.shutdownRequested then (t, false)
  else ({ phase := TaskPhase.stopped, shutdownRequested := true }, true)

/-- Embedding of the `engine.PerUserKeyBackground` engine: it owns the
background task installed at construction time. -/
structure PerUserKeyBackground where
  task : BackgroundTask
deriving DecidableEq, Repr

/-- Embedding of `engine.NewPerUserKeyBackground`: the task is built and
installed at construction time, before the owning engine runs, precisely
so that Shutdown can be called before RunEngine. -/
def NewPerUserKeyBackground : PerUserKeyBackground :=
  { task := NewBackgroundTask }

/-- Embedding of `engine.PerUserKeyBackground.Run`: runs the installed
task's loop via RunEngine. -/
def PerUserKeyBackground.Run (e : PerUserKeyBackground) : PerUserKeyBackground :=
  { task := e.task.Run }

/-- Embedding of `engine.PerUserKeyBackground.Shutdown`: delegates to the
task's Shutdown.  Returns the new engine state and whether this call
performed the observable termination. -/
def PerUserKeyBackground.Shutdown (e : PerUserKeyBackground) :
    PerUserKeyBackground × Bool :=
  let r := e.task.Shutdown
  ({ task := r.1 }, r.2)

/-- Repeated invocation of `PerUserKeyBackground.Shutdown`: `n` sequential
calls, returning the final engine state and how many calls performed the
observable termination. -/
def shutdownTimes : Nat → PerUserKeyBackground → PerUserKeyBackground × Nat
  | 0, e => (e, 0)
  | Nat.succ n, e =>
    let r := e.Shutdown
    let rest := shutdownTimes n r.1
    (rest.1, (if r.2 then 1 else 0) + rest.2)

/-- Result reported by the connectivity monitor's `IsConnected`. -/
inductive ConnectivityResult where
  | yes
  | no
  | unknown
deriving DecidableEq, Repr

/-- Outcome of `GetPerUserKeyring`: a load error, or the loaded keyring
abstracted to whether `HasAnyKeys()` holds. -/
inductive KeyringLoad where
  | loadErr (e : GoError)
  | loaded (hasAnyKeys : Bool)
deriving DecidableEq, Repr

/-- Inputs of one `engine.PerUserKeyBackgroundRound` invocation: the
per-user-key upgrade setting, the connectivity monitor's answer, the
keyring load outcome, and the result of running the `PerUserKeyUpgrade`
engine should the round reach it. -/
structure RoundEnv where
  upgradePerUserKey : Bool
  connectivity : ConnectivityResult
  perUserKeyring : KeyringLoad
  upgradeResult : Option GoError
deriving DecidableEq, Repr

/-- Embedding of `engine.PerUserKeyBackgroundRound`: return nil if the
upgrade setting is disabled; return nil if the connectivity monitor says
not connected; if the keyring loads without error and already has keys,
return nil; otherwise run the `PerUserKeyUpgrade` engine and return its
result. -/
def PerUserKeyBackgroundRound (env : RoundEnv) : Option GoError :=
  if env.upgradePerUserKey = false then none
  else if env.connectivity = ConnectivityResult.no then none
  else
    match env.perUserKeyring with
    | KeyringLoad.loaded true => none
    | KeyringLoad.loaded false => env.upgradeResult
    | KeyringLoad.loadErr _ => env.upgradeResult

theorem serveLoop_not_registered (ids : List Nat) :
    Event.serveLoop ∉ ids.map Event.registered := by
  simp

theorem count_cleanup_registered (ids : List Nat) :
    (ids.map Event.registered).count Event.cleanupRun = 0 := by
  induction ids with
  | nil => rfl
  | cons i rest ih => simp [List.count_cons, ih]

/-- C1: the claim that `RegisterProtocols` returns the collection of all
registered handlers exposing a shutdown capability fails on the code: the
`shutdowners` named return is never appended to, so for a protocol list
containing a single shutdown-capable handler the function returns the
empty collection instead of that handler. -/
theorem register_protocols_collect_counterexample :
    (RegisterProtocols
        [{ pid := 0, hasShutdown := true, registerErr := none }]).shutdowners ≠
      collectShutdownersSpec
        [{ pid := 0, hasShutdown := true, registerErr := none }] := by
  decide

/-- C1 (amended): `RegisterProtocols` always returns the empty shutdowner
collection, and the cleanup closure of `Handle` runs exactly once and
invokes `Shutdown` exactly once on each handler of that returned
collection — hence, it being empty, on no handler at all. -/
theorem register_protocols_no_shutdowners (protocols : List Protocol)
    (serveIsEOF : Bool) :
    (RegisterProtocols protocols).shutdowners = [] ∧
    (Handle protocols serveIsEOF).count Event.cleanupRun = 1 ∧
    ∀ i, (Handle protocols serveIsEOF).count (Event.shutdownHandler i) = 0 := by
  refine ⟨rfl, ?_, ?_⟩
  · rcases h : (registerLoop protocols).2 with _ | e <;>
      cases serveIsEOF <;>
      simp [Handle, RegisterProtocols, shutdownClosure, h, List.count_append,
            List.count_cons, count_cleanup_registered]
  · intro i
    rcases h : (registerLoop protocols).2 with _ | e <;>
      cases serveIsEOF <;>
      simp [Handle, RegisterProtocols, shutdownClosure, h, List.count_append,
            List.count_cons, List.count_eq_zero]

theorem shutdownCalls_done (shutdowners : List Protocol) (n : Nat) :
    shutdownCalls shutdowners n { done := true } = (0, List.replicate n none) := by
  induction n with
  | zero => rfl
  | succ n ih => simp [shutdownCalls, shutdownClosure, ih, List.replicate]

/-- C2: the per-connection shutdown closure of `Handle` is idempotent:
across any number `n` of invocations from a fresh `sync.Once` latch, the
body shutting down the collected handlers executes `min n 1` times (so at
most once, and exactly once as soon as it is invoked at all), and every
invocation returns nil. -/
theorem handle_shutdown_closure_idempotent (shutdowners : List Protocol) (n : Nat) :
    (shutdownCalls shutdowners n { done := false }).1 = min n 1 ∧
    (shutdownCalls shutdowners n { done := false }).2 = List.replicate n none := by
  cases n with
  | zero => exact ⟨rfl, rfl⟩
  | succ n =>
    constructor
    · simp [shutdownCalls, shutdownClosure, shutdownCalls_done]
    · simp [shutdownCalls, shutdownClosure, shutdownCalls_done, List.replicate]

/-- C3: the claim that every subsystem-stopping step of `OnLogout` is
nil-guarded fails on the code: `stopChatModules` is called unguarded, so a
logout from the state `NewService` leaves the service in (before
`createChatModules` has populated the chat context) panics on the nil
`MessageDeliverer`; once the chat modules exist, `OnLogout` does not panic
whatever the other (guarded) subsystem references are. -/
theorem onlogout_partial_startup_panics :
    OnLogout newServiceState = ExecResult.panicked ∧
    (∀ g b bi : Bool,
      (OnLogout { gregor := g, badger := b, backgroundIdentifier := bi,
                  messageDeliverer := true, convLoader := true,
                  fetchRetrier := true }).isPanicked = false) := by
  exact ⟨rfl, by decide⟩

/-- C4: the claim that a `gregordConnect` failure never prevents the
remaining login fan-out fails on the code: with a failing connect and a
non-nil uid, `OnLogin` returns the connect error and the chat modules are
never started. -/
theorem onlogin_gregord_failure_counterexample :
    (OnLogin (some { code := 0 }) false).2 = some { code := 0 } ∧
    LoginStep.startChat ∉ (OnLogin (some { code := 0 }) false).1 := by
  decide

/-- C4 (amended): a `gregordConnect` failure in `OnLogin` is fatal to the
login fan-out: the error is returned immediately and none of the remaining
steps run; the fan-out executes exactly when the connect succeeds and the
current uid is non-nil. -/
theorem onlogin_gregord_failure_fatal (e : GoError) (u : Bool) :
    OnLogin (some e) u =
      ([LoginStep.rekeyLogin, LoginStep.gregordConnectStep], some e) ∧
    OnLogin none false =
      ([LoginStep.rekeyLogin, LoginStep.gregordConnectStep, LoginStep.startChat,
        LoginStep.runBGIdentifier, LoginStep.identifySelfStep], none) ∧
    OnLogin none true =
      ([LoginStep.rekeyLogin, LoginStep.gregordConnectStep], none) := by
  exact ⟨rfl, rfl, rfl⟩

/-- C5: `Run` performs its startup steps in the specified order (its trace
is always a prefix of `runSequence`), and whenever one of the claim's
startup steps (lock acquisition, socket cleanup, either store open, socket
bind, critical-subsystem setup) is the first to fail, `Run` returns that
step's error and never enters the accept loop. -/
theorem run_startup_order_and_failure (env : RunEnv) :
    (Run env).1 <+: runSequence ∧
    (env.writeServiceInfoErr = none →
      ∀ e, startupStepErr env = some e →
        (Run env).2 = some e ∧ RunStep.acceptLoop ∉ (Run env).1) := by
  rcases env with ⟨_ | e0, _ | e1, _ | e2, _ | e3, _ | e4, _ | e5, le⟩ <;>
    refine ⟨⟨_, rfl⟩, fun hw e he => ?_⟩ <;>
    first
      | exact absurd hw (Option.some_ne_none _)
      | exact Option.noConfusion he
      | (injection he with h; subst h; exact ⟨rfl, by simp [Run]⟩)

/-- Witness for `run_startup_order_and_failure` at an environment whose
exclusive-lock acquisition fails. -/
theorem run_startup_order_and_failure_witness :
    (Run { writeServiceInfoErr := none, lockErr := some { code := 3 },
           cleanupSocketErr := none, localDbErr := none, localChatDbErr := none,
           bindErr := none, listenErr := none }).2 = some { code := 3 } ∧
    RunStep.acceptLoop ∉
      (Run { writeServiceInfoErr := none, lockErr := some { code := 3 },
             cleanupSocketErr := none, localDbErr := none, localChatDbErr := none,
             bindErr := none, listenErr := none }).1 :=
  (run_startup_order_and_failure _).2 rfl { code := 3 } rfl

/-- C6: when protocol registration fails, `Handle` logs a warning and
returns without ever entering the serve loop, and the cleanup closure
still runs exactly once via the deferred call. -/
theorem handle_register_error_aborts (protocols : List Protocol)
    (serveIsEOF : Bool) (e : GoError)
    (h : (RegisterProtocols protocols).err = some e) :
    Event.serveLoop ∉ Handle protocols serveIsEOF ∧
    Event.logWarning ∈ Handle protocols serveIsEOF ∧
    (Handle protocols serveIsEOF).count Event.cleanupRun = 1 := by
  simp only [RegisterProtocols] at h
  refine ⟨?_, ?_, ?_⟩ <;>
    simp [Handle, RegisterProtocols, shutdownClosure, h, List.count_append,
          List.count_cons, count_cleanup_registered]

/-- Witness for `handle_register_error_aborts` at a one-protocol list
whose registration fails. -/
theorem handle_register_error_aborts_witness :
    (RegisterProtocols
        [{ pid := 0, hasShutdown := false, registerErr := some { code := 7 } }]).err =
      some { code := 7 } ∧
    (Event.serveLoop ∉
        Handle [{ pid := 0, hasShutdown := false, registerErr := some { code := 7 } }] true ∧
      Event.logWarning ∈
        Handle [{ pid := 0, hasShutdown := false, registerErr := some { code := 7 } }] true ∧
      (Handle [{ pid := 0, hasShutdown := false, registerErr := some { code := 7 } }] true).count
          Event.cleanupRun = 1) :=
  ⟨rfl, handle_register_error_aborts _ true { code := 7 } rfl⟩

theorem listenLoop_result (conns : List Nat) (fin : AcceptErr) :
    ListenLoop conns fin =
      (conns, match fin with
              | AcceptErr.closed => none
              | AcceptErr.other e => some e) := by
  induction conns with
  | nil => cases fin <;> rfl
  | cons c rest ih => simp [ListenLoop, ih]

/-- C7: `ListenLoop` returns nil exactly when `Accept` failed because the
listener was closed and the `Accept` error otherwise, and
`ListenLoopWithStopper` returns exactly the exit code delivered through
`Stop`, closing the listener after receiving it and joining the accept
loop before returning. -/
theorem listen_loop_stop_semantics (conns : List Nat) (e : GoError) (code : Nat) :
    ListenLoop conns AcceptErr.closed = (conns, none) ∧
    ListenLoop conns (AcceptErr.other e) = (conns, some e) ∧
    ListenLoopWithStopper conns code =
      ([StopEvent.receivedExit code, StopEvent.closedListener, StopEvent.joinedLoop],
       code, none) := by
  refine ⟨listenLoop_result conns AcceptErr.closed,
          listenLoop_result conns (AcceptErr.other e), ?_⟩
  simp [ListenLoopWithStopper, listenLoop_result]

theorem registerLoop_success_ids (protocols : List Protocol)
    (h : (registerLoop protocols).2 = none) :
    (registerLoop protocols).1 = protocols.map Protocol.pid := by
  induction protocols with
  | nil => rfl
  | cons p rest ih =>
    rcases hp : p.registerErr with _ | e
    · simp [registerLoop, hp] at h ⊢
      exact ih h
    · simp [registerLoop, hp] at h

/-- C8: `Handle` enters the serve loop exactly when every protocol of the
enumerated list registered without error, and in that case the trace keeps
all the registration events (one per enumerated protocol, in order) strictly
before the serve loop begins. -/
theorem handle_registration_before_serve (protocols : List Protocol)
    (serveIsEOF : Bool) :
    (Event.serveLoop ∈ Handle protocols serveIsEOF ↔
      (RegisterProtocols protocols).err = none) ∧
    ((RegisterProtocols protocols).err = none →
      (RegisterProtocols protocols).registeredIds = protocols.map Protocol.pid ∧
      Handle protocols serveIsEOF =
        protocols.map (fun p => Event.registered p.pid) ++
          ([Event.pushShutdownHook, Event.serveLoop, Event.sentErrToNotifier] ++
            (if serveIsEOF then [] else [Event.logRunWarning]) ++
            [Event.cleanupRun])) := by
  rcases h : (registerLoop protocols).2 with _ | e
  · constructor
    · simp [Handle, RegisterProtocols, shutdownClosure, h]
    · intro _
      have hids := registerLoop_success_ids protocols h
      refine ⟨by simp [RegisterProtocols, hids], ?_⟩
      cases serveIsEOF <;>
        simp [Handle, RegisterProtocols, shutdownClosure, h, hids,
              List.map_map, Function.comp]
  · constructor
    · simp [Handle, RegisterProtocols, shutdownClosure, h]
    · intro hc
      simp [RegisterProtocols, h] at hc

/-- Witness for `handle_registration_before_serve` at a one-protocol list
that registers successfully. -/
theorem handle_registration_before_serve_witness :
    (RegisterProtocols
        [{ pid := 5, hasShutdown := false, registerErr := none }]).registeredIds = [5] ∧
    Handle [{ pid := 5, hasShutdown := false, registerErr := none }] true =
      [Event.registered 5, Event.pushShutdownHook, Event.serveLoop,
       Event.sentErrToNotifier, Event.cleanupRun] := by
  have h :=
    (handle_registration_before_serve
      [{ pid := 5, hasShutdown := false, registerErr := none }] true).2 rfl
  exact ⟨h.1, h.2.trans (by decide)⟩

theorem shutdownTimes_latched (n : Nat) (t : BackgroundTask)
    (h : t.shutdownRequested = true) :
    (shutdownTimes n { task := t }).2 = 0 := by
  induction n generalizing t with
  | zero => rfl
  | succ n ih =>
    have hstep : ({ task := t } : PerUserKeyBackground).Shutdown = ({ task := t }, false) := by
      simp [PerUserKeyBackground.Shutdown, BackgroundTask.Shutdown, h]
    simp [shutdownTimes, hstep, ih t h]

/-- C9: `NewPerUserKeyBackground` installs its background task at
construction time (the task exists, in the created phase, before the
owning engine runs), and calling `PerUserKeyBackground.Shutdown` any
number of times — whether or not the engine was run first — performs the
observable termination exactly `min n 1` times: never for zero calls,
exactly once otherwise, with every further call a latched no-op that
cannot double-close the internal signal. -/
theorem per_user_key_background_shutdown_idempotent (n : Nat) (ranFirst : Bool) :
    NewPerUserKeyBackground.task.phase = TaskPhase.created ∧
    (shutdownTimes n
      (if ranFirst then NewPerUserKeyBackground.Run
       else NewPerUserKeyBackground)).2 = min n 1 := by
  refine ⟨rfl, ?_⟩
  cases n with
  | zero => cases ranFirst <;> rfl
  | succ n =>
    have hlatch : (shutdownTimes n
        { task := { phase := TaskPhase.stopped, shutdownRequested := true } }).2 = 0 :=
      shutdownTimes_latched n _ rfl
    cases ranFirst <;>
      simp [shutdownTimes, PerUserKeyBackground.Shutdown, PerUserKeyBackground.Run,
            BackgroundTask.Shutdown, BackgroundTask.Run, NewPerUserKeyBackground,
            NewBackgroundTask, hlatch]

/-- C10: `PerUserKeyBackgroundRound` returns nil when the per-user-key
upgrade setting is disabled, when the connectivity monitor answers not
connected, or when the keyring loads without error and already has keys;
in every other case its result is exactly the result of running the
`PerUserKeyUpgrade` engine. -/
theorem per_user_key_round_skip_or_run (env : RoundEnv) :
    (env.upgradePerUserKey = false → PerUserKeyBackgroundRound env = none) ∧
    (env.connectivity = ConnectivityResult.no → PerUserKeyBackgroundRound env = none) ∧
    (env.perUserKeyring = KeyringLoad.loaded true → PerUserKeyBackgroundRound env = none) ∧
    (env.upgradePerUserKey = true → env.connectivity ≠ ConnectivityResult.no →
      env.perUserKeyring ≠ KeyringLoad.loaded true →
      PerUserKeyBackgroundRound env = env.upgradeResult) := by
  obtain ⟨u, c, k, r⟩ := env
  refine ⟨fun h => ?_, fun h => ?_, fun h => ?_, fun hu hc hk => ?_⟩
  · simp at h
    simp [PerUserKeyBackgroundRound, h]
  · simp at h
    simp [PerUserKeyBackgroundRound, h]
  · simp at h
    simp [PerUserKeyBackgroundRound, h]
  · simp at hu hc hk
    rcases k with e | b
    · simp [PerUserKeyBackgroundRound, hu, hc]
    · cases b
      · simp [PerUserKeyBackgroundRound, hu, hc]
      · simp at hk

/-- Witness for `per_user_key_round_skip_or_run` at an environment with
the upgrade enabled, connectivity available, and a keyring that loaded
without keys: the round's result is the upgrade engine's result. -/
theorem per_user_key_round_skip_or_run_witness :
    PerUserKeyBackgroundRound
      { upgradePerUserKey := true, connectivity := ConnectivityResult.yes,
        perUserKeyring := KeyringLoad.loaded false,
        upgradeResult := some { code := 9 } } = some { code := 9 } :=
  (per_user_key_round_skip_or_run _).2.2.2 rfl (by decide) (by decide)
